import Mathlib

/-
  Shallow embedding of the synkafka Broker connection engine
  (src/src/broker.cpp) together with the parts of its codec collaborator
  that the repository does not ship under src/ (modelled from the spec).

  State mutation in the C++ source becomes explicit state passing:
  every handler takes a BrokerState and returns the new BrokerState
  together with the list of externally visible Effects it performed
  (promise fulfilment, socket operations, posts).  Machine integers
  (int32_t) are modelled as Int with explicit wrapping modulo 2 ^ 32.
-/

namespace Synkafka

/-- Connection lifecycle states of the broker (StateInit, StateConnecting,
StateConnected, StateClosed in broker.cpp). -/
inductive ConnState
  | StateInit
  | StateConnecting
  | StateConnected
  | StateClosed
deriving DecidableEq, Repr

/-- Reader actor states (RespHandlerStateIdle / ReadHeader / ReadResp in
broker.cpp). -/
inductive RespState
  | RespHandlerStateIdle
  | RespHandlerStateReadHeader
  | RespHandlerStateReadResp
deriving DecidableEq, Repr

/-- Kafka request header as carried by an in-flight request
(proto::RequestHeader). The correlation_id holds the int32 value as an Int. -/
structure RequestHeader where
  api_key : Int
  api_version : Int
  correlation_id : Int
  client_id : String
deriving DecidableEq, Repr

/-- One entry of the in-flight queue (struct InFlightRequest in broker.h as
used by broker.cpp): header, the externally encoded request body bytes, and
the sent flag.  The response promise is modelled through Effects naming the
correlation id of the request whose promise is touched. -/
structure InFlightRequest where
  header : RequestHeader
  packet : List Nat
  sent : Bool
deriving DecidableEq, Repr

/-- A response decoder handed to the caller; it is backed by exactly the
byte buffer it was constructed from (PacketDecoder pd(response_buffer_)). -/
structure PacketDecoder where
  buf : List Nat
deriving DecidableEq, Repr

/-- Exceptions set on a response promise by broker.cpp. -/
inductive PromiseError
  | systemError (ec : Nat)
  | runtimeError (msg : String)
deriving DecidableEq, Repr

/-- Externally visible actions performed by a handler, in program order. -/
inductive Effect
  | setValue (corr : Int) (pd : PacketDecoder)
  | setException (corr : Int) (e : PromiseError)
  | asyncRead (len : Nat)
  | asyncWrite (header_bytes : List Nat) (body : List Nat)
  | asyncResolve
  | asyncConnect
  | postResponseHandler
  | socketShutdown
  | notifyAll
deriving DecidableEq, Repr

/-- The strand-local state of one Broker: correlation counter, in-flight
queue, connection state, reader state, and the two read buffers. -/
structure BrokerState where
  next_correlation_id : Int
  in_flight : List InFlightRequest
  connection_state : ConnState
  response_handler_state : RespState
  header_buffer : List Nat
  response_buffer : List Nat
deriving DecidableEq, Repr

/-- Two-complement wrap of an Int into the int32 range, used wherever the
source increments the int32 correlation counter. -/
def wrap32 (n : Int) : Int :=
  (n + 2 ^ 31) % 2 ^ 32 - 2 ^ 31

/-- Unsigned 32-bit pattern of an int32 value. -/
def toU32 (n : Int) : Nat :=
  (n % 2 ^ 32).toNat

/-- Signed reading of a 32-bit unsigned pattern. -/
def toS32 (n : Nat) : Int :=
  if n < 2 ^ 31 then (n : Int) else (n : Int) - 2 ^ 32

/-- Big-endian four byte encoding of an unsigned 32-bit value. -/
def be32 (n : Nat) : List Nat :=
  [n / 2 ^ 24 % 256, n / 2 ^ 16 % 256, n / 2 ^ 8 % 256, n % 256]

/-- Modelled from the spec: the codec collaborator (PacketDecoder::io on
int32 fields, source not under src/) reads a big-endian signed 32-bit
integer from the front of a buffer and fails when fewer than four bytes
remain (spec section 4.5 and 6: all integer fields are big-endian two
complement). -/
def decode_be32 : List Nat → Option (Int × List Nat)
  | b0 :: b1 :: b2 :: b3 :: rest =>
      some (toS32 (((b0 * 256 + b1) * 256 + b2) * 256 + b3), rest)
  | _ => none

/-- Broker state right after the constructor: counter 1, empty queue,
StateInit, reader Idle, 8 byte header staging buffer. -/
def initBroker : BrokerState :=
  { next_correlation_id := 1
  , in_flight := []
  , connection_state := ConnState.StateInit
  , response_handler_state := RespState.RespHandlerStateIdle
  , header_buffer := List.replicate 8 0
  , response_buffer := [] }

/-- Mirror of Broker::is_connected. -/
def is_connected (st : BrokerState) : Bool :=
  decide (st.connection_state = ConnState.StateConnected)

/-- Mirror of Broker::is_closed. -/
def is_closed (st : BrokerState) : Bool :=
  decide (st.connection_state = ConnState.StateClosed)

/-- Mirror of Broker::close: idempotent; shuts the socket down, sets
StateClosed and notifies all waiters. -/
def brokerClose (st : BrokerState) : BrokerState × List Effect :=
  if st.connection_state = ConnState.StateClosed then
    (st, [])
  else
    ({ st with connection_state := ConnState.StateClosed },
     [Effect.socketShutdown, Effect.notifyAll])

/-- Compile-time Kafka API version constant used by Broker::call. -/
def KafkaApiVersion : Int := 0

/-- In-flight record as constructed by Broker::call: correlation id 0 until
enqueue, sent false, fresh promise. -/
def mkInFlight (api_key : Int) (client_id : String) (packet : List Nat) :
    InFlightRequest :=
  { header :=
      { api_key := api_key
      , api_version := KafkaApiVersion
      , correlation_id := 0
      , client_id := client_id }
  , packet := packet
  , sent := false }

/-- Mirror of Broker::write_next_request.  The request header encoder
(PacketEncoder, source not under src/) is passed as a parameter enc taking
the header and the body size and returning the length-prefixed header bytes,
or none when encoding fails.  Note the source, on encode failure, merely
returns: the request is neither failed nor popped (the TODO comment at
broker.cpp line 276 records the missing error handling). -/
def write_next_request (enc : RequestHeader → Nat → Option (List Nat))
    (st : BrokerState) : BrokerState × List Effect :=
  match st.in_flight with
  | [] => (st, [])
  | req :: _ =>
    if req.sent then
      (st, [])
    else
      match enc req.header req.packet.length with
      | none => (st, [])
      | some header_bytes => (st, [Effect.asyncWrite header_bytes req.packet])

/-- Mirror of Broker::push_request: drop when closed, otherwise assign the
next correlation id (int32 post-increment), append at the tail, and invoke
the writer when connected. -/
def push_request (enc : RequestHeader → Nat → Option (List Nat))
    (req : InFlightRequest) (st : BrokerState) : BrokerState × List Effect :=
  if is_closed st then
    (st, [])
  else
    let req2 := { req with header :=
        { req.header with correlation_id := st.next_correlation_id } }
    let st2 := { st with
        next_correlation_id := wrap32 (st.next_correlation_id + 1)
      , in_flight := st.in_flight ++ [req2] }
    if is_connected st2 then
      write_next_request enc st2
    else
      (st2, [])

/-- Mirror of Broker::handle_write: on a write error fail the head with the
system error and pop it (the connection stays open); on success set the sent
flag and post the response handler when it is Idle. -/
def handle_write (ec : Option Nat) (bytes_written : Nat) (st : BrokerState) :
    BrokerState × List Effect :=
  match st.in_flight with
  | [] => (st, [])
  | req :: rest =>
    match ec with
    | some e =>
        ({ st with in_flight := rest },
         [Effect.setException req.header.correlation_id
            (PromiseError.systemError e)])
    | none =>
        let st2 := { st with in_flight := { req with sent := true } :: rest }
        if st.response_handler_state = RespState.RespHandlerStateIdle then
          (st2, [Effect.postResponseHandler])
        else
          (st2, [])

/-- Rank used for the termination measure of the reader actor: the single
recursive call in the ReadResp arm runs on a state whose reader state has
just been set back to Idle. -/
def respRank : RespState → Nat
  | RespState.RespHandlerStateIdle => 0
  | RespState.RespHandlerStateReadHeader => 1
  | RespState.RespHandlerStateReadResp => 2

/-- Mirror of Broker::response_handler_actor, the three state framing
machine.  ec is the completion error code of the read that just finished,
n its bytes_transferred.  The arms follow the source switch: Idle starts an
8 byte header read; ReadHeader decodes length and correlation id, validates
the correlation id against the head, allocates a body buffer of
response_len - 4 bytes and starts the body read; ReadResp checks the byte
count, fulfils the head promise with a decoder over the body buffer, pops
the head, and when the next entry is already sent tail-calls itself to read
the next response. -/
def response_handler_actor (ec : Option Nat) (n : Nat) (st : BrokerState) :
    BrokerState × List Effect :=
  if !(is_connected st) || st.in_flight.isEmpty then
    (st, [])
  else
    match st.in_flight with
    | [] => (st, [])
    | req :: rest =>
      match ec with
      | some e =>
          let (st2, effs) := brokerClose st
          (st2, Effect.setException req.header.correlation_id
                  (PromiseError.systemError e) :: effs)
      | none =>
        match hstate : st.response_handler_state with
        | RespState.RespHandlerStateIdle =>
            ({ st with response_handler_state :=
                 RespState.RespHandlerStateReadHeader },
             [Effect.asyncRead 8])
        | RespState.RespHandlerStateReadHeader =>
            let st1 := { st with response_handler_state :=
                RespState.RespHandlerStateReadResp }
            match decode_be32 st1.header_buffer with
            | none =>
                let (st2, effs) := brokerClose st1
                (st2, Effect.setException req.header.correlation_id
                        (PromiseError.runtimeError "Packet decoding error")
                      :: effs)
            | some (response_len, restBytes) =>
              match decode_be32 restBytes with
              | none =>
                  let (st2, effs) := brokerClose st1
                  (st2, Effect.setException req.header.correlation_id
                          (PromiseError.runtimeError "Packet decoding error")
                        :: effs)
              | some (resp_correlation_id, _) =>
                if req.header.correlation_id ≠ resp_correlation_id then
                  let (st2, effs) := brokerClose st1
                  (st2, Effect.setException req.header.correlation_id
                          (PromiseError.runtimeError "Correlation ID mismatch")
                        :: effs)
                else
                  let body_len := (response_len - 4).toNat
                  ({ st1 with response_buffer := List.replicate body_len 0 },
                   [Effect.asyncRead body_len])
        | RespState.RespHandlerStateReadResp =>
            let st1 := { st with response_handler_state :=
                RespState.RespHandlerStateIdle }
            if n < st1.response_buffer.length then
              let (st2, effs) := brokerClose st1
              (st2, Effect.setException req.header.correlation_id
                      (PromiseError.runtimeError "Not enough bytes read")
                    :: effs)
            else
              let pd : PacketDecoder := { buf := st1.response_buffer }
              let st2 := { st1 with in_flight := rest }
              let base := [Effect.setValue req.header.correlation_id pd]
              match rest with
              | [] => (st2, base)
              | req2 :: _ =>
                if req2.sent then
                  let (st3, effs2) := response_handler_actor none 0 st2
                  (st3, base ++ effs2)
                else
                  (st2, base)
termination_by respRank st.response_handler_state
decreasing_by
  simp only [hstate, respRank]
  omega

/-- Outcome codes of Broker::wait_for_connect (synkafka_error values). -/
inductive ErrC
  | no_error
  | network_timeout
  | network_fail
deriving DecidableEq, Repr

/-- Mirror of the condition-variable wait in the StateConnecting arm of
wait_for_connect: wake is the connection state observed when the wait
returns (wake still StateConnecting means the timeout expired, since the
predicate waits for the state to leave StateConnecting). -/
def cv_wait_connecting (wake : ConnState) : ErrC :=
  if wake = ConnState.StateConnecting then ErrC.network_timeout
  else if wake = ConnState.StateClosed then ErrC.network_fail
  else ErrC.no_error

/-- Evaluation of the wait_for_connect switch under the lock for a given
current state and wake observation.  The catch-all arm covers StateClosed
together with the default label of the source switch; the recursive
StateInit arm is handled by wait_for_connect itself and can never recur
(the state never returns to StateInit once left). -/
def wait_for_connect_locked (st : ConnState) (wake : ConnState) : ErrC :=
  match st with
  | ConnState.StateConnected => ErrC.no_error
  | ConnState.StateConnecting => cv_wait_connecting wake
  | _ => ErrC.network_fail

/-- Result of a wait_for_connect call: the returned code, the connection
state transition the call itself performed (none when it only read), and
the asynchronous operations it started. -/
structure WaitResult where
  code : ErrC
  written : Option ConnState
  effects : List Effect
deriving DecidableEq, Repr

/-- Mirror of Broker::wait_for_connect.  reentry is the connection state
observed when the recursive call of the StateInit arm re-acquires the lock
(never StateInit again), wake the state observed when a condition wait
returns. -/
def wait_for_connect (st : ConnState) (reentry wake : ConnState) :
    WaitResult :=
  match st with
  | ConnState.StateInit =>
      { code := wait_for_connect_locked reentry wake
      , written := some ConnState.StateConnecting
      , effects := [Effect.asyncResolve] }
  | s =>
      { code := wait_for_connect_locked s wake
      , written := none
      , effects := [] }

/-- Mirror of Broker::handle_resolve: a resolve error closes the broker,
otherwise a connect to the first endpoint is started. -/
def handle_resolve (ec : Option Nat) (st : BrokerState) :
    BrokerState × List Effect :=
  match ec with
  | some _ => brokerClose st
  | none => (st, [Effect.asyncConnect])

/-- Mirror of Broker::handle_connect: on success set StateConnected, notify
all waiters and call the writer when the queue is not empty; on failure try
the next endpoint when one remains, else close. -/
def handle_connect (enc : RequestHeader → Nat → Option (List Nat))
    (ec : Option Nat) (more_endpoints : Bool) (st : BrokerState) :
    BrokerState × List Effect :=
  match ec with
  | none =>
      let st1 := { st with connection_state := ConnState.StateConnected }
      if st1.in_flight.isEmpty then
        (st1, [Effect.notifyAll])
      else
        let (st2, effs) := write_next_request enc st1
        (st2, Effect.notifyAll :: effs)
  | some _ =>
      if more_endpoints then
        (st, [Effect.asyncConnect])
      else
        brokerClose st

/-- Correlation ids of the in-flight queue in queue order. -/
def idsOf (st : BrokerState) : List Int :=
  st.in_flight.map (fun r => r.header.correlation_id)

/-- One strand step of the broker: any handler of broker.cpp invoked with
arbitrary environment inputs, plus the environment filling a read buffer
before a read completion is delivered. -/
inductive Step : BrokerState → BrokerState → Prop
  | push (enc : RequestHeader → Nat → Option (List Nat)) (api_key : Int)
      (client_id : String) (packet : List Nat) (st : BrokerState) :
      Step st (push_request enc (mkInFlight api_key client_id packet) st).1
  | hwrite (ec : Option Nat) (n : Nat) (st : BrokerState) :
      Step st (handle_write ec n st).1
  | actor (ec : Option Nat) (n : Nat) (st : BrokerState) :
      Step st (response_handler_actor ec n st).1
  | hresolve (ec : Option Nat) (st : BrokerState) :
      Step st (handle_resolve ec st).1
  | hconnect (enc : RequestHeader → Nat → Option (List Nat))
      (ec : Option Nat) (more : Bool) (st : BrokerState) :
      Step st (handle_connect enc ec more st).1
  | closeStep (st : BrokerState) :
      Step st (brokerClose st).1
  | startConnect (st : BrokerState) :
      st.connection_state = ConnState.StateInit →
      Step st { st with connection_state := ConnState.StateConnecting }
  | envHeader (bytes : List Nat) (st : BrokerState) :
      bytes.length = st.header_buffer.length →
      Step st { st with header_buffer := bytes }
  | envBody (bytes : List Nat) (st : BrokerState) :
      bytes.length = st.response_buffer.length →
      Step st { st with response_buffer := bytes }

/-- States reachable from the freshly constructed broker. -/
inductive Reachable : BrokerState → Prop
  | init : Reachable initBroker
  | step {st st2 : BrokerState} : Reachable st → Step st st2 → Reachable st2

/-- Queue-shape relation between a state and the state a handler produced:
the correlation counter is untouched and the queue correlation ids are
either unchanged or had the head popped. -/
def QP (st st2 : BrokerState) : Prop :=
  st2.next_correlation_id = st.next_correlation_id ∧
  (idsOf st2 = idsOf st ∨ idsOf st2 = (idsOf st).tail)

/-- Correlation invariant: the counter is an in-range int32 and the queue
ids in order are the 32-bit wraps of the consecutive integers ending just
below the counter. -/
def Inv (st : BrokerState) : Prop :=
  -2 ^ 31 ≤ st.next_correlation_id ∧ st.next_correlation_id < 2 ^ 31 ∧
  ∀ i : Nat, i < (idsOf st).length →
    (idsOf st)[i]? =
      some (wrap32 (st.next_correlation_id - (idsOf st).length + i))

/-- Header encoder that always fails, exercising the encode-error branch of
write_next_request. -/
def encFail : RequestHeader → Nat → Option (List Nat) :=
  fun _ _ => none

/-- Repeated push_request from the constructed state (the broker still in
StateInit, so the writer is never invoked). -/
def pushIter : Nat → BrokerState
  | 0 => initBroker
  | n + 1 => (push_request encFail (mkInFlight 18 "c1" []) (pushIter n)).1

/-- Concrete in-flight request with correlation id 1 already written to the
socket. -/
def reqA : InFlightRequest :=
  { header :=
      { api_key := 18, api_version := 0, correlation_id := 1
      , client_id := "c1" }
  , packet := [], sent := true }

/-- Concrete in-flight request with correlation id 2 not yet written. -/
def reqB : InFlightRequest :=
  { header :=
      { api_key := 18, api_version := 0, correlation_id := 2
      , client_id := "c1" }
  , packet := [7], sent := false }

/-- Connected broker in the ReadResp arm holding a fully read empty body,
with a second, not yet written request queued behind the head. -/
def stC2 : BrokerState :=
  { next_correlation_id := 3
  , in_flight := [reqA, reqB]
  , connection_state := ConnState.StateConnected
  , response_handler_state := RespState.RespHandlerStateReadResp
  , header_buffer := [0, 0, 0, 4, 0, 0, 0, 1]
  , response_buffer := [] }

/-- Connected idle broker whose single queued request has not been sent. -/
def stC4 : BrokerState :=
  { next_correlation_id := 2
  , in_flight := [reqB]
  , connection_state := ConnState.StateConnected
  , response_handler_state := RespState.RespHandlerStateIdle
  , header_buffer := List.replicate 8 0
  , response_buffer := [] }

/-- Connected broker in ReadHeader whose staging buffer holds the response
frame header be32(6) followed by be32(1): total length 6, correlation id 1,
so a body of 2 bytes follows. -/
def stC1 : BrokerState :=
  { next_correlation_id := 2
  , in_flight := [reqA]
  , connection_state := ConnState.StateConnected
  , response_handler_state := RespState.RespHandlerStateReadHeader
  , header_buffer := [0, 0, 0, 6, 0, 0, 0, 1]
  , response_buffer := [] }

/-- Connected broker in ReadHeader whose staging buffer carries correlation
id 42 while the head request carries correlation id 1. -/
def stC6 : BrokerState :=
  { next_correlation_id := 2
  , in_flight := [reqA]
  , connection_state := ConnState.StateConnected
  , response_handler_state := RespState.RespHandlerStateReadHeader
  , header_buffer := [0, 0, 0, 4, 0, 0, 0, 42]
  , response_buffer := [] }

/-- Connected broker in ReadResp expecting a three byte body. -/
def stC7 : BrokerState :=
  { next_correlation_id := 2
  , in_flight := [reqA]
  , connection_state := ConnState.StateConnected
  , response_handler_state := RespState.RespHandlerStateReadResp
  , header_buffer := [0, 0, 0, 7, 0, 0, 0, 1]
  , response_buffer := [9, 9, 9] }

/-- Broker already closed, used to exercise the drop branch of
push_request. -/
def stClosed : BrokerState :=
  { next_correlation_id := 5
  , in_flight := []
  , connection_state := ConnState.StateClosed
  , response_handler_state := RespState.RespHandlerStateIdle
  , header_buffer := List.replicate 8 0
  , response_buffer := [] }

/-! ## Helper lemmas -/

theorem wrap32_lb (a : Int) : -2 ^ 31 ≤ wrap32 a := by
  unfold wrap32
  omega

theorem wrap32_ub (a : Int) : wrap32 a < 2 ^ 31 := by
  unfold wrap32
  omega

theorem wrap32_eq_self (a : Int) (h1 : -2 ^ 31 ≤ a) (h2 : a < 2 ^ 31) :
    wrap32 a = a := by
  unfold wrap32
  omega

theorem wrap32_congr (a b : Int) (h : a % 2 ^ 32 = b % 2 ^ 32) :
    wrap32 a = wrap32 b := by
  unfold wrap32
  omega

theorem wrap32_emod (a : Int) : wrap32 a % 2 ^ 32 = a % 2 ^ 32 := by
  unfold wrap32
  omega

theorem toS32_toU32 (c : Int) (h1 : -2 ^ 31 ≤ c) (h2 : c < 2 ^ 31) :
    toS32 (toU32 c) = c := by
  unfold toS32 toU32
  split <;> omega

theorem toU32_lt (c : Int) : toU32 c < 2 ^ 32 := by
  unfold toU32
  omega

/-- Decoding a big-endian 32-bit value put down by be32 recovers its signed
reading and leaves the remaining bytes untouched. -/
theorem decode_be32_be32 (u : Nat) (rest : List Nat) (h : u < 2 ^ 32) :
    decode_be32 (be32 u ++ rest) = some (toS32 u, rest) := by
  have hu : ((u / 16777216 % 256 * 256 + u / 65536 % 256) * 256
      + u / 256 % 256) * 256 + u % 256 = u := by
    omega
  simp [be32, decode_be32]
  rw [hu]

/-- Decoding exactly the four bytes of a be32 value. -/
theorem decode_be32_be32_nil (u : Nat) (h : u < 2 ^ 32) :
    decode_be32 (be32 u) = some (toS32 u, []) := by
  have h2 := decode_be32_be32 u [] h
  rwa [List.append_nil] at h2

/-! ## Claim theorems -/

/-- C10: response_handler_actor invoked (with any completion, including an
error) while the connection is not Connected or the in-flight queue is
empty returns immediately: the state is unchanged and no effect (promise,
close, read) is performed. -/
theorem c10_actor_early_return (ec : Option Nat) (n : Nat) (st : BrokerState)
    (h : st.connection_state ≠ ConnState.StateConnected ∨ st.in_flight = []) :
    response_handler_actor ec n st = (st, []) := by
  rw [response_handler_actor]
  rcases h with h | h
  · simp [is_connected, h]
  · simp [h]

/-- C10 witness: a read completion carrying an error that arrives after
close() is silently discarded. -/
theorem c10_actor_early_return_witness :
    response_handler_actor (some 104) 0 stClosed = (stClosed, []) :=
  c10_actor_early_return (some 104) 0 stClosed (Or.inl (by decide))

/-- C5: when the socket write for the head request completes with an error,
the head promise is failed with the network error and the head is popped,
while the connection state is left untouched (not closed); on success the
sent flag of the head becomes true and the response handler is posted
exactly when the reader was Idle. -/
theorem c5_handle_write (ec : Nat) (n m : Nat) (st : BrokerState)
    (req : InFlightRequest) (rest : List InFlightRequest)
    (hq : st.in_flight = req :: rest) :
    handle_write (some ec) n st =
      ({ st with in_flight := rest },
       [Effect.setException req.header.correlation_id
          (PromiseError.systemError ec)]) ∧
    (handle_write (some ec) n st).1.connection_state = st.connection_state ∧
    handle_write none m st =
      ({ st with in_flight := { req with sent := true } :: rest },
       if st.response_handler_state = RespState.RespHandlerStateIdle then
         [Effect.postResponseHandler]
       else
         []) := by
  refine ⟨?_, ?_, ?_⟩
  · simp [handle_write, hq]
  · simp [handle_write, hq]
  · simp only [handle_write, hq]
    split <;> simp_all

/-- C5 witness at a concrete connected broker with one unsent request. -/
theorem c5_handle_write_witness :
    handle_write (some 104) 0 stC4 =
      ({ stC4 with in_flight := [] },
       [Effect.setException 2 (PromiseError.systemError 104)]) ∧
    (handle_write (some 104) 0 stC4).1.connection_state =
      stC4.connection_state ∧
    handle_write none 9 stC4 =
      ({ stC4 with in_flight := [{ reqB with sent := true }] },
       if stC4.response_handler_state = RespState.RespHandlerStateIdle then
         [Effect.postResponseHandler]
       else
         []) :=
  c5_handle_write 104 0 9 stC4 reqB [] (by decide)

/-- C3: wait_for_connect returns ok at once when Connected and network_fail
at once when Closed; when Connecting it waits and maps the observed wake
state still Connecting / Connected / Closed to timeout / ok / network_fail;
when Init it performs the single transition Init to Connecting, starts the
asynchronous resolve, and then behaves exactly as a wait that started in
Connecting, evaluated at the state observed on re-entry. -/
theorem c3_wait_for_connect (reentry wake : ConnState) :
    wait_for_connect ConnState.StateConnected reentry wake =
      { code := ErrC.no_error, written := none, effects := [] } ∧
    wait_for_connect ConnState.StateClosed reentry wake =
      { code := ErrC.network_fail, written := none, effects := [] } ∧
    wait_for_connect ConnState.StateConnecting reentry wake =
      { code := cv_wait_connecting wake, written := none, effects := [] } ∧
    (wake = ConnState.StateConnecting →
      cv_wait_connecting wake = ErrC.network_timeout) ∧
    (wake = ConnState.StateConnected →
      cv_wait_connecting wake = ErrC.no_error) ∧
    (wake = ConnState.StateClosed →
      cv_wait_connecting wake = ErrC.network_fail) ∧
    wait_for_connect ConnState.StateInit reentry wake =
      { code := wait_for_connect_locked reentry wake
      , written := some ConnState.StateConnecting
      , effects := [Effect.asyncResolve] } ∧
    (reentry ≠ ConnState.StateInit →
      wait_for_connect_locked reentry wake =
        cv_wait_connecting
          (if reentry = ConnState.StateConnecting then wake else reentry)) := by
  cases reentry <;> cases wake <;> decide

/-- C3 witness: a wait that starts in Init, re-enters in Connecting and is
woken by the transition to Connected. -/
theorem c3_wait_for_connect_witness :
    wait_for_connect ConnState.StateInit ConnState.StateConnecting
        ConnState.StateConnected =
      { code := wait_for_connect_locked ConnState.StateConnecting
          ConnState.StateConnected
      , written := some ConnState.StateConnecting
      , effects := [Effect.asyncResolve] } ∧
    cv_wait_connecting ConnState.StateConnected = ErrC.no_error :=
  ⟨(c3_wait_for_connect ConnState.StateConnecting
      ConnState.StateConnected).2.2.2.2.2.2.1,
   (c3_wait_for_connect ConnState.StateConnecting
      ConnState.StateConnected).2.2.2.2.1 rfl⟩

/-- C4 (code bug): when the header encoder fails for the unsent head
request, write_next_request returns with no effect at all: the promise is
not failed with an encode error, the request stays queued.  The claim says
the wait handle is failed with EncodeError; the TODO comment at broker.cpp
line 276 records the intended, missing handling. -/
theorem c4_encode_failure_silent :
    write_next_request encFail stC4 = (stC4, []) := by
  decide

/-- C2 (code bug): after the reader completes a response and pops the head,
when the remaining head has sent == false the code does nothing: the reader
returns to Idle with no further read and, contrary to the claim, the writer
is not kicked (no effect beyond fulfilling the popped head promise). -/
theorem c2_no_writer_kick_after_pop :
    response_handler_actor none 0 stC2 =
      ({ stC2 with
          response_handler_state := RespState.RespHandlerStateIdle
        , in_flight := [reqB] },
       [Effect.setValue 1 { buf := [] }]) := by
  rw [response_handler_actor]
  simp [stC2, is_connected, reqA, reqB]

/-- C8: push_request on a closed broker drops the request with no other
effect (state unchanged, promise untouched); otherwise it assigns the next
counter value as correlation id, appends at the tail, advances the counter
by one modulo 2 ^ 32, and invokes the writer exactly when the broker is
Connected. -/
theorem c8_push_request (enc : RequestHeader → Nat → Option (List Nat))
    (req : InFlightRequest) (st : BrokerState) :
    (st.connection_state = ConnState.StateClosed →
      push_request enc req st = (st, [])) ∧
    (st.connection_state ≠ ConnState.StateClosed →
      st.connection_state = ConnState.StateConnected →
      push_request enc req st =
        write_next_request enc
          { st with
              next_correlation_id := wrap32 (st.next_correlation_id + 1)
            , in_flight := st.in_flight ++
                [{ req with header :=
                    { req.header with
                        correlation_id := st.next_correlation_id } }] }) ∧
    (st.connection_state ≠ ConnState.StateClosed →
      st.connection_state ≠ ConnState.StateConnected →
      push_request enc req st =
        ({ st with
            next_correlation_id := wrap32 (st.next_correlation_id + 1)
          , in_flight := st.in_flight ++
              [{ req with header :=
                  { req.header with
                      correlation_id := st.next_correlation_id } }] },
         [])) := by
  refine ⟨fun h => ?_, fun h h2 => ?_, fun h h2 => ?_⟩
  · simp [push_request, is_closed, h]
  · simp [push_request, is_closed, is_connected, h, h2]
  · simp [push_request, is_closed, is_connected, h, h2]

/-- C8 witness: a push on a closed broker is dropped silently, and a push
on the broker still in StateInit enqueues with correlation id 1 without
invoking the writer. -/
theorem c8_push_request_witness :
    push_request encFail (mkInFlight 18 "c1" []) stClosed = (stClosed, []) ∧
    push_request encFail (mkInFlight 18 "c1" []) initBroker =
      ({ initBroker with
          next_correlation_id := wrap32 (initBroker.next_correlation_id + 1)
        , in_flight := initBroker.in_flight ++
            [{ mkInFlight 18 "c1" [] with header :=
                { (mkInFlight 18 "c1" []).header with
                    correlation_id := initBroker.next_correlation_id } }] },
       []) :=
  ⟨(c8_push_request encFail (mkInFlight 18 "c1" []) stClosed).1 (by decide),
   ((c8_push_request encFail (mkInFlight 18 "c1" []) initBroker).2.2
     (by decide) (by decide))⟩

/-- C6: in the ReadHeader step, a decoded correlation id that differs from
the correlation id of the head in-flight request fails the head promise
with the correlation mismatch error and closes the connection; the head is
not popped and no later entry is touched. -/
theorem c6_correlation_mismatch (st : BrokerState) (n : Nat)
    (req : InFlightRequest) (rest : List InFlightRequest)
    (len_u corr_u : Nat)
    (hconn : st.connection_state = ConnState.StateConnected)
    (hq : st.in_flight = req :: rest)
    (hrs : st.response_handler_state = RespState.RespHandlerStateReadHeader)
    (hbuf : st.header_buffer = be32 len_u ++ be32 corr_u)
    (hlen : len_u < 2 ^ 32) (hcorr : corr_u < 2 ^ 32)
    (hne : req.header.correlation_id ≠ toS32 corr_u) :
    response_handler_actor none n st =
      ({ st with
          response_handler_state := RespState.RespHandlerStateReadResp
        , connection_state := ConnState.StateClosed },
       [Effect.setException req.header.correlation_id
          (PromiseError.runtimeError "Correlation ID mismatch"),
        Effect.socketShutdown, Effect.notifyAll]) := by
  obtain ⟨c, fl, cs, rs, hb, rb⟩ := st
  dsimp only at hconn hq hrs hbuf
  subst hconn hq hrs hbuf
  rw [response_handler_actor]
  simp [is_connected, decode_be32_be32 len_u _ hlen,
        decode_be32_be32_nil corr_u hcorr, hne, brokerClose]

/-- C6 witness: head carries correlation id 1, the wire carries 42; the
head is failed with the mismatch error, the connection closes, the queue is
untouched. -/
theorem c6_correlation_mismatch_witness :
    response_handler_actor none 8 stC6 =
      ({ stC6 with
          response_handler_state := RespState.RespHandlerStateReadResp
        , connection_state := ConnState.StateClosed },
       [Effect.setException reqA.header.correlation_id
          (PromiseError.runtimeError "Correlation ID mismatch"),
        Effect.socketShutdown, Effect.notifyAll]) :=
  c6_correlation_mismatch stC6 8 reqA [] 4 42 (by decide) (by decide)
    (by decide) (by decide) (by decide) (by decide) (by decide)

/-- Characterization of the Idle arm of the reader: a kick on a connected
broker with a non-empty queue moves to ReadHeader and starts the 8 byte
header read. -/
theorem actor_idle (st : BrokerState) (n : Nat)
    (hconn : st.connection_state = ConnState.StateConnected)
    (hq : st.in_flight ≠ [])
    (hrs : st.response_handler_state = RespState.RespHandlerStateIdle) :
    response_handler_actor none n st =
      ({ st with
          response_handler_state := RespState.RespHandlerStateReadHeader },
       [Effect.asyncRead 8]) := by
  obtain ⟨c, fl, cs, rs, hb, rb⟩ := st
  dsimp only at hconn hq hrs
  subst hconn hrs
  cases fl with
  | nil => exact absurd rfl hq
  | cons req rest =>
      rw [response_handler_actor]
      simp [is_connected]

/-- C7: in the ReadBody step a completion whose byte count falls short of
the requested body size fails the head with the short read error and closes
the connection; the head promise receives a decoder exactly when the byte
count equals the requested size, in which case the head is popped. -/
theorem c7_short_read (st : BrokerState) (n : Nat)
    (req : InFlightRequest) (rest : List InFlightRequest)
    (hconn : st.connection_state = ConnState.StateConnected)
    (hq : st.in_flight = req :: rest)
    (hrs : st.response_handler_state = RespState.RespHandlerStateReadResp)
    (hn : n ≤ st.response_buffer.length) :
    (n ≠ st.response_buffer.length →
      response_handler_actor none n st =
        ({ st with
            response_handler_state := RespState.RespHandlerStateIdle
          , connection_state := ConnState.StateClosed },
         [Effect.setException req.header.correlation_id
            (PromiseError.runtimeError "Not enough bytes read"),
          Effect.socketShutdown, Effect.notifyAll])) ∧
    (n = st.response_buffer.length →
      (response_handler_actor none n st).1.in_flight = rest ∧
      (response_handler_actor none n st).2.head? =
        some (Effect.setValue req.header.correlation_id
          { buf := st.response_buffer })) := by
  obtain ⟨c, fl, cs, rs, hb, rb⟩ := st
  dsimp only at hconn hq hrs hn ⊢
  subst hconn hq hrs
  constructor
  · intro hne
    have hlt : n < rb.length := lt_of_le_of_ne hn hne
    rw [response_handler_actor]
    simp [is_connected, hlt, brokerClose]
  · intro heq
    subst heq
    rw [response_handler_actor]
    cases rest with
    | nil => simp [is_connected]
    | cons req2 rest2 =>
        by_cases hs : req2.sent
        · simp [is_connected, hs, actor_idle]
        · simp [is_connected, hs]

/-- C7 witness: a three byte body answered with only two bytes is failed
with the short read error and closes the connection; answered with three
bytes the head is fulfilled and popped. -/
theorem c7_short_read_witness :
    (response_handler_actor none 2 stC7 =
      ({ stC7 with
          response_handler_state := RespState.RespHandlerStateIdle
        , connection_state := ConnState.StateClosed },
       [Effect.setException reqA.header.correlation_id
          (PromiseError.runtimeError "Not enough bytes read"),
        Effect.socketShutdown, Effect.notifyAll])) ∧
    ((response_handler_actor none 3 stC7).1.in_flight = [] ∧
      (response_handler_actor none 3 stC7).2.head? =
        some (Effect.setValue reqA.header.correlation_id
          { buf := stC7.response_buffer })) :=
  ⟨(c7_short_read stC7 2 reqA [] (by decide) (by decide) (by decide)
      (by decide)).1 (by decide),
   (c7_short_read stC7 3 reqA [] (by decide) (by decide) (by decide)
      (by decide)).2 (by decide)⟩

/-- Signed reading of an unsigned value below 2 ^ 31 is itself. -/
theorem toS32_small (u : Nat) (h : u < 2 ^ 31) : toS32 u = u := by
  unfold toS32
  omega

/-- C1: a response framed as be32(4 + K) followed by be32(corr_id) followed
by K payload bytes, whose correlation id matches the head request, makes
the ReadHeader step allocate a body buffer of exactly K bytes and start a
K byte read; once the environment has filled that buffer with the payload
and the read completes with K bytes, the head promise is fulfilled with a
decoder backed by exactly the payload and the head is popped. -/
theorem c1_response_delivery (st : BrokerState)
    (req : InFlightRequest) (rest : List InFlightRequest)
    (K : Nat) (cid : Int) (payload : List Nat)
    (hconn : st.connection_state = ConnState.StateConnected)
    (hq : st.in_flight = req :: rest)
    (hrs : st.response_handler_state = RespState.RespHandlerStateReadHeader)
    (hcid : req.header.correlation_id = cid)
    (hlo : -2 ^ 31 ≤ cid) (hhi : cid < 2 ^ 31)
    (hK : K + 4 < 2 ^ 31)
    (hbuf : st.header_buffer = be32 (4 + K) ++ be32 (toU32 cid))
    (hpay : payload.length = K) :
    response_handler_actor none 8 st =
      ({ st with
          response_handler_state := RespState.RespHandlerStateReadResp
        , response_buffer := List.replicate K 0 },
       [Effect.asyncRead K]) ∧
    (response_handler_actor none K
        { st with
            response_handler_state := RespState.RespHandlerStateReadResp
          , response_buffer := payload }).1.in_flight = rest ∧
    (response_handler_actor none K
        { st with
            response_handler_state := RespState.RespHandlerStateReadResp
          , response_buffer := payload }).2.head? =
      some (Effect.setValue cid { buf := payload }) := by
  obtain ⟨c, fl, cs, rs, hb, rb⟩ := st
  dsimp only at hconn hq hrs hbuf ⊢
  subst hconn hq hrs hbuf
  have hlen4 : 4 + K < 2 ^ 32 := by omega
  have hcu : toU32 cid < 2 ^ 32 := toU32_lt cid
  have hdecode := decode_be32_be32 (4 + K) (be32 (toU32 cid)) hlen4
  have hdecode2 := decode_be32_be32_nil (toU32 cid) hcu
  have hres : toS32 (4 + K) = (4 + K : Int) := by
    rw [toS32_small _ (by omega)]
    push_cast
    ring
  have hback : toS32 (toU32 cid) = cid := toS32_toU32 cid hlo hhi
  have hlen : ((4 + K : Int) - 4).toNat = K := by omega
  refine ⟨?_, ?_, ?_⟩
  · rw [response_handler_actor]
    simp [is_connected, hdecode, hdecode2, hres, hback, hcid, hlen]
  · rw [response_handler_actor]
    cases rest with
    | nil => simp [is_connected, hpay]
    | cons req2 rest2 =>
        by_cases hs : req2.sent
        · simp [is_connected, hpay, hs, actor_idle]
        · simp [is_connected, hpay, hs]
  · rw [response_handler_actor]
    cases rest with
    | nil => simp [is_connected, hpay, hcid]
    | cons req2 rest2 =>
        by_cases hs : req2.sent
        · simp [is_connected, hpay, hs, actor_idle, hcid]
        · simp [is_connected, hpay, hs, hcid]

/-- C1 witness: frame be32(6), be32(1) and payload [5, 6] delivered to a
head request with correlation id 1. -/
theorem c1_response_delivery_witness :
    response_handler_actor none 8 stC1 =
      ({ stC1 with
          response_handler_state := RespState.RespHandlerStateReadResp
        , response_buffer := List.replicate 2 0 },
       [Effect.asyncRead 2]) ∧
    (response_handler_actor none 2
        { stC1 with
            response_handler_state := RespState.RespHandlerStateReadResp
          , response_buffer := [5, 6] }).1.in_flight = [] ∧
    (response_handler_actor none 2
        { stC1 with
            response_handler_state := RespState.RespHandlerStateReadResp
          , response_buffer := [5, 6] }).2.head? =
      some (Effect.setValue 1 { buf := [5, 6] }) :=
  c1_response_delivery stC1 reqA [] 2 1 [5, 6] (by decide) (by decide)
    (by decide) (by decide) (by decide) (by decide) (by decide) (by decide)
    (by decide)

/-! ## Queue-shape lemmas used by the correlation id invariant -/

/-- write_next_request never mutates the broker state (it only starts an
asynchronous write). -/
theorem write_next_request_state
    (enc : RequestHeader → Nat → Option (List Nat)) (st : BrokerState) :
    (write_next_request enc st).1 = st := by
  rcases hq : st.in_flight with _ | ⟨req, rest⟩
  · simp [write_next_request, hq]
  · by_cases hs : req.sent
    · simp [write_next_request, hq, hs]
    · rcases he : enc req.header req.packet.length with _ | hb
      · simp [write_next_request, hq, hs, he]
      · simp [write_next_request, hq, hs, he]

/-- State produced by push_request on a broker that is not closed. -/
theorem push_request_state (enc : RequestHeader → Nat → Option (List Nat))
    (req : InFlightRequest) (st : BrokerState)
    (hcl : st.connection_state ≠ ConnState.StateClosed) :
    (push_request enc req st).1 =
      { st with
          next_correlation_id := wrap32 (st.next_correlation_id + 1)
        , in_flight := st.in_flight ++
            [{ req with header :=
                { req.header with
                    correlation_id := st.next_correlation_id } }] } := by
  have hcl2 : is_closed st = false := by
    simp [is_closed, hcl]
  unfold push_request
  rw [hcl2]
  simp only [Bool.false_eq_true, if_false]
  split
  · rw [write_next_request_state]
  · rfl

/-- brokerClose keeps the counter and the queue ids. -/
theorem brokerClose_QP (st : BrokerState) : QP st (brokerClose st).1 := by
  unfold brokerClose
  split
  · exact ⟨rfl, Or.inl rfl⟩
  · exact ⟨rfl, Or.inl rfl⟩

/-- Early return of the reader used for internal reasoning: not connected
or empty queue means no work. -/
theorem actor_early (ec : Option Nat) (n : Nat) (st : BrokerState)
    (h : st.connection_state ≠ ConnState.StateConnected ∨
      st.in_flight = []) :
    response_handler_actor ec n st = (st, []) := by
  rw [response_handler_actor]
  rcases h with h | h
  · simp [is_connected, h]
  · simp [h]

/-- The reader actor keeps the counter and either keeps the queue ids or
pops the head. -/
theorem actor_QP (ec : Option Nat) (n : Nat) (st : BrokerState) :
    QP st (response_handler_actor ec n st).1 := by
  by_cases hconn : st.connection_state = ConnState.StateConnected
  case neg =>
    rw [actor_early ec n st (Or.inl hconn)]
    exact ⟨rfl, Or.inl rfl⟩
  obtain ⟨c, fl, cs, rs, hb, rb⟩ := st
  dsimp only at hconn
  subst hconn
  rcases fl with _ | ⟨req, rest⟩
  · rw [actor_early ec n _ (Or.inr rfl)]
    exact ⟨rfl, Or.inl rfl⟩
  rcases ec with _ | e
  · rcases rs with _ | _ | _
    · rw [response_handler_actor]
      simp [QP, is_connected, idsOf]
    · rw [response_handler_actor]
      rcases hdec : decode_be32 hb with _ | ⟨rl, restb⟩
      · simp [QP, is_connected, idsOf, hdec, brokerClose]
      · rcases hdec2 : decode_be32 restb with _ | ⟨rc, restc⟩
        · simp [QP, is_connected, idsOf, hdec, hdec2, brokerClose]
        · by_cases hmatch : req.header.correlation_id = rc
          · simp [QP, is_connected, idsOf, hdec, hdec2, hmatch, brokerClose]
          · simp [QP, is_connected, idsOf, hdec, hdec2, hmatch, brokerClose]
    · by_cases hlt : n < rb.length
      · rw [response_handler_actor]
        simp [QP, is_connected, idsOf, hlt, brokerClose]
      · rcases rest with _ | ⟨req2, rest2⟩
        · rw [response_handler_actor]
          simp [QP, is_connected, idsOf, hlt]
        · by_cases hs : req2.sent
          · rw [response_handler_actor]
            simp [QP, is_connected, idsOf, hlt, hs, actor_idle]
          · rw [response_handler_actor]
            simp [QP, is_connected, idsOf, hlt, hs]
  · rw [response_handler_actor]
    simp [QP, is_connected, idsOf, brokerClose]

/-- Inv depends only on the counter and the queue ids. -/
theorem inv_transfer (st st2 : BrokerState)
    (hc : st2.next_correlation_id = st.next_correlation_id)
    (hids : idsOf st2 = idsOf st) (h : Inv st) : Inv st2 := by
  obtain ⟨h1, h2, h3⟩ := h
  refine ⟨hc ▸ h1, hc ▸ h2, ?_⟩
  rw [hids, hc]
  exact h3

/-- Popping the queue head preserves Inv. -/
theorem inv_tail (st st2 : BrokerState)
    (hc : st2.next_correlation_id = st.next_correlation_id)
    (hids : idsOf st2 = (idsOf st).tail) (h : Inv st) : Inv st2 := by
  obtain ⟨h1, h2, h3⟩ := h
  refine ⟨hc ▸ h1, hc ▸ h2, ?_⟩
  intro i hi
  rw [hids] at hi ⊢
  rw [hc]
  rw [List.getElem?_tail]
  rw [List.length_tail] at hi ⊢
  have hlt : i + 1 < (idsOf st).length := by omega
  rw [h3 (i + 1) hlt]
  congr 1
  apply wrap32_congr
  have hlen : 1 ≤ (idsOf st).length := by omega
  omega

/-- Inv is preserved along any queue-shape step. -/
theorem inv_QP {st st2 : BrokerState} (hqp : QP st st2) (h : Inv st) :
    Inv st2 := by
  rcases hqp with ⟨hc, hids | hids⟩
  · exact inv_transfer st st2 hc hids h
  · exact inv_tail st st2 hc hids h

/-- Queue ids after a push on a broker that is not closed. -/
theorem idsOf_push (enc : RequestHeader → Nat → Option (List Nat))
    (req : InFlightRequest) (st : BrokerState)
    (hcl : st.connection_state ≠ ConnState.StateClosed) :
    idsOf (push_request enc req st).1 =
      idsOf st ++ [st.next_correlation_id] := by
  rw [push_request_state enc req st hcl]
  simp [idsOf]

/-- Counter after a push on a broker that is not closed. -/
theorem counter_push (enc : RequestHeader → Nat → Option (List Nat))
    (req : InFlightRequest) (st : BrokerState)
    (hcl : st.connection_state ≠ ConnState.StateClosed) :
    (push_request enc req st).1.next_correlation_id =
      wrap32 (st.next_correlation_id + 1) := by
  rw [push_request_state enc req st hcl]

/-- Pushing preserves Inv: the new tail entry continues the consecutive id
sequence. -/
theorem inv_push (enc : RequestHeader → Nat → Option (List Nat))
    (req : InFlightRequest) (st : BrokerState) (h : Inv st) :
    Inv (push_request enc req st).1 := by
  by_cases hcl : st.connection_state = ConnState.StateClosed
  · have hres : push_request enc req st = (st, []) := by
      simp [push_request, is_closed, hcl]
    rw [hres]
    exact h
  · obtain ⟨h1, h2, h3⟩ := h
    refine ⟨?_, ?_, ?_⟩
    · rw [counter_push enc req st hcl]
      exact wrap32_lb _
    · rw [counter_push enc req st hcl]
      exact wrap32_ub _
    · intro i hi
      rw [idsOf_push enc req st hcl] at hi ⊢
      rw [counter_push enc req st hcl]
      rw [List.length_append, List.length_singleton] at hi ⊢
      by_cases hilen : i < (idsOf st).length
      · rw [List.getElem?_append]
        rw [if_pos hilen]
        rw [h3 i hilen]
        simp only [Option.some.injEq]
        unfold wrap32
        omega
      · have hieq : i = (idsOf st).length := by omega
        subst hieq
        rw [List.getElem?_concat_length]
        simp only [Option.some.injEq]
        unfold wrap32
        omega

/-- handle_write keeps the counter and keeps or pops the queue ids. -/
theorem handle_write_QP (ec : Option Nat) (n : Nat) (st : BrokerState) :
    QP st (handle_write ec n st).1 := by
  rcases hq : st.in_flight with _ | ⟨req, rest⟩
  · simp [QP, handle_write, hq]
  · rcases ec with _ | e
    · by_cases hrs :
        st.response_handler_state = RespState.RespHandlerStateIdle
      · simp [QP, handle_write, hq, hrs, idsOf]
      · simp [QP, handle_write, hq, hrs, idsOf]
    · simp [QP, handle_write, hq, idsOf]

/-- handle_resolve keeps the counter and the queue ids. -/
theorem handle_resolve_QP (ec : Option Nat) (st : BrokerState) :
    QP st (handle_resolve ec st).1 := by
  rcases ec with _ | e
  · simp [QP, handle_resolve]
  · simpa [handle_resolve] using brokerClose_QP st

/-- handle_connect keeps the counter and the queue ids. -/
theorem handle_connect_QP (enc : RequestHeader → Nat → Option (List Nat))
    (ec : Option Nat) (more : Bool) (st : BrokerState) :
    QP st (handle_connect enc ec more st).1 := by
  rcases ec with _ | e
  · by_cases he : st.in_flight.isEmpty
    · simp [QP, handle_connect, he, idsOf]
    · rcases hw : write_next_request enc
        { st with connection_state := ConnState.StateConnected }
        with ⟨st2, effs⟩
      have hst2 : st2 =
          { st with connection_state := ConnState.StateConnected } := by
        have h0 := write_next_request_state enc
          { st with connection_state := ConnState.StateConnected }
        rw [hw] at h0
        exact h0
      simp [QP, handle_connect, he, hw, hst2, idsOf]
  · by_cases hm : more
    · simp [QP, handle_connect, hm]
    · simpa [handle_connect, hm] using brokerClose_QP st

/-- Every step of the broker preserves the correlation invariant. -/
theorem step_inv {st st2 : BrokerState} (hs : Step st st2) (h : Inv st) :
    Inv st2 := by
  cases hs with
  | push enc api_key client_id packet st =>
      exact inv_push enc (mkInFlight api_key client_id packet) st h
  | hwrite ec n st => exact inv_QP (handle_write_QP ec n st) h
  | actor ec n st => exact inv_QP (actor_QP ec n st) h
  | hresolve ec st => exact inv_QP (handle_resolve_QP ec st) h
  | hconnect enc ec more st => exact inv_QP (handle_connect_QP enc ec more st) h
  | closeStep st => exact inv_QP (brokerClose_QP st) h
  | startConnect st hin => exact inv_transfer st _ rfl rfl h
  | envHeader bytes st hlen => exact inv_transfer st _ rfl rfl h
  | envBody bytes st hlen => exact inv_transfer st _ rfl rfl h

/-- Every reachable broker state satisfies the correlation invariant. -/
theorem reachable_inv {st : BrokerState} (h : Reachable st) : Inv st := by
  induction h with
  | init =>
      refine ⟨by norm_num [initBroker], by norm_num [initBroker], ?_⟩
      intro i hi
      simp [initBroker, idsOf] at hi
  | step hr hs ih => exact step_inv hs ih

/-- C9 (amended): over every reachable state the counter starts at 1 and
each enqueue advances it by exactly one modulo 2 ^ 32; the queue ids in
order are the 32-bit wraps of the consecutive integers ending just below
the counter (so they are strictly increasing except where they cross the
int32 wrap boundary); and no two entries share a correlation id provided
the queue holds at most 2 ^ 32 entries. -/
theorem c9_ids_consecutive (st : BrokerState) (h : Reachable st) :
    initBroker.next_correlation_id = 1 ∧
    -2 ^ 31 ≤ st.next_correlation_id ∧ st.next_correlation_id < 2 ^ 31 ∧
    (∀ i : Nat, i < (idsOf st).length →
      (idsOf st)[i]? =
        some (wrap32 (st.next_correlation_id - (idsOf st).length + i))) ∧
    ((idsOf st).length ≤ 2 ^ 32 →
      (idsOf st).Pairwise (fun a b => a ≠ b)) ∧
    (∀ (enc : RequestHeader → Nat → Option (List Nat))
        (req : InFlightRequest),
      st.connection_state ≠ ConnState.StateClosed →
      (push_request enc req st).1.next_correlation_id % 2 ^ 32 =
        (st.next_correlation_id + 1) % 2 ^ 32) := by
  obtain ⟨h1, h2, h3⟩ := reachable_inv h
  refine ⟨rfl, h1, h2, h3, ?_, ?_⟩
  · intro hlen
    rw [List.pairwise_iff_getElem]
    intro i j hi hj hij
    have hvi := h3 i hi
    have hvj := h3 j hj
    rw [List.getElem?_eq_getElem hi] at hvi
    rw [List.getElem?_eq_getElem hj] at hvj
    intro hcontra
    rw [hcontra, hvj] at hvi
    have heq := Option.some.inj hvi
    unfold wrap32 at heq
    omega
  · intro enc req hcl
    rw [counter_push enc req st hcl]
    exact wrap32_emod _

/-- C9 witness at the freshly constructed broker. -/
theorem c9_ids_consecutive_witness :
    initBroker.next_correlation_id = 1 ∧
    -2 ^ 31 ≤ initBroker.next_correlation_id ∧
    initBroker.next_correlation_id < 2 ^ 31 ∧
    (∀ i : Nat, i < (idsOf initBroker).length →
      (idsOf initBroker)[i]? =
        some (wrap32 (initBroker.next_correlation_id -
          (idsOf initBroker).length + i))) ∧
    ((idsOf initBroker).length ≤ 2 ^ 32 →
      (idsOf initBroker).Pairwise (fun a b => a ≠ b)) ∧
    (∀ (enc : RequestHeader → Nat → Option (List Nat))
        (req : InFlightRequest),
      initBroker.connection_state ≠ ConnState.StateClosed →
      (push_request enc req initBroker).1.next_correlation_id % 2 ^ 32 =
        (initBroker.next_correlation_id + 1) % 2 ^ 32) :=
  c9_ids_consecutive initBroker Reachable.init

/-- Closed form for the state after n pushes from the constructed broker:
still StateInit, counter wrap32 (1 + n), queue ids wrap32 1 .. wrap32 n. -/
theorem pushIter_facts (n : Nat) :
    (pushIter n).connection_state = ConnState.StateInit ∧
    (pushIter n).next_correlation_id = wrap32 (1 + n) ∧
    idsOf (pushIter n) =
      (List.range n).map (fun i : Nat => wrap32 (1 + (i : Int))) := by
  induction n with
  | zero =>
      refine ⟨rfl, ?_, rfl⟩
      norm_num [pushIter, initBroker, wrap32]
  | succ k ih =>
      obtain ⟨hcs, hc, hids⟩ := ih
      have hncl :
          (pushIter k).connection_state ≠ ConnState.StateClosed := by
        rw [hcs]
        intro hcontra
        cases hcontra
      refine ⟨?_, ?_, ?_⟩
      · show (push_request encFail (mkInFlight 18 "c1" [])
            (pushIter k)).1.connection_state = ConnState.StateInit
        rw [push_request_state _ _ _ hncl]
        exact hcs
      · show (push_request encFail (mkInFlight 18 "c1" [])
            (pushIter k)).1.next_correlation_id = wrap32 (1 + (k + 1 : Nat))
        rw [counter_push _ _ _ hncl, hc]
        apply wrap32_congr
        have hw := wrap32_emod (1 + (k : Int))
        push_cast
        omega
      · show idsOf (push_request encFail (mkInFlight 18 "c1" [])
            (pushIter k)).1 =
          (List.range (k + 1)).map (fun i : Nat => wrap32 (1 + (i : Int)))
        rw [idsOf_push _ _ _ hncl, hids, hc, List.range_succ,
          List.map_append]
        simp

/-- Every pushIter state is reachable. -/
theorem pushIter_reachable (n : Nat) : Reachable (pushIter n) := by
  induction n with
  | zero => exact Reachable.init
  | succ k ih =>
      exact Reachable.step ih
        (Step.push encFail 18 "c1" [] (pushIter k))

set_option linter.constructorNameAsVariable false in
set_option maxRecDepth 10000 in
/-- C9 counterexample: after 2 ^ 31 pushes the broker is in a reachable
state whose queue ids are not strictly increasing in queue order: the id
sequence crosses the int32 wrap, ending 2 ^ 31 - 1, -2 ^ 31. -/
theorem c9_counterexample :
    Reachable (pushIter (2 ^ 31)) ∧
    ¬ List.Chain' (fun a b : Int => a < b) (idsOf (pushIter (2 ^ 31))) := by
  have hids := (pushIter_facts (2 ^ 31)).2.2
  have hchain :
      ¬ List.Chain' (fun a b : Int => a < b)
        (idsOf (pushIter (2 ^ 31))) := by
    rw [hids]
    intro hch
    have h1 : (2 : Nat) ^ 31 = (2 ^ 31 - 1) + 1 := by omega
    have h2 : (2 : Nat) ^ 31 - 1 = (2 ^ 31 - 2) + 1 := by omega
    rw [h1] at hch
    rw [List.range_succ] at hch
    rw [h2] at hch
    rw [List.range_succ] at hch
    rw [List.map_append, List.map_append] at hch
    rw [List.chain'_append] at hch
    obtain ⟨h3, h4, hlast⟩ := hch
    simp only [List.map_cons, List.map_nil] at hlast
    have hxy := hlast (wrap32 (1 + ((2 ^ 31 - 2 : Nat) : Int)))
      (by simp) (wrap32 (1 + ((2 ^ 31 - 1 : Nat) : Int))) (by simp)
    unfold wrap32 at hxy
    omega
  exact ⟨pushIter_reachable (2 ^ 31), hchain⟩
